import Mathlib

/-!
Shallow embedding of the connection-establishment and state-reconciliation
core of the terraform-provider-vaultoperator repository.

The embedding follows the source files:
  * the provider `configure` function (TLS-enabled revision) with its
    helper `homeDir`, the provider schema defaults, and the structs
    `kubeConn`, `tlsConfig`, `apiClient`;
  * the resource operations `resourceInitCreate`, `resourceInitRead`,
    `resourceInitUpdate`, `resourceInitDelete`, `resourceInitImporter`
    and `updateState`.

External collaborators (the kubernetes client library, the Vault API
client constructor, TLS application, the filesystem, JSON decoding and
environment variables) are modelled as explicit capability records whose
members return `Except String` results; the Go standard library
functions `net/url.Parse` and `path/filepath.Join` that the importer
composes are modelled directly, restricted to the URI forms the
importer documents (scheme://host/path, no query, fragment or
userinfo handling).
-/

/-- Model of `*rest.Config` produced by `clientcmd.BuildConfigFromFlags`
(opaque to this core; a tag distinguishes concrete instances). -/
structure restConfig where
  tag : String
deriving Repr, DecidableEq

/-- Model of `*kubernetes.Clientset` produced by `kubernetes.NewForConfig`
(opaque to this core). -/
structure Clientset where
  tag : String
deriving Repr, DecidableEq

/-- Model of the `api.TLSConfig` argument passed to
`vaultConfig.ConfigureTLS` (the fields the source populates). -/
structure APITLSConfig where
  caCert : String := ""
  clientCert : String := ""
  clientKey : String := ""
  insecure : Bool := false
deriving Repr, DecidableEq

/-- Model of `api.Config`: the address together with the TLS material
applied to it by `ConfigureTLS` (none when never applied). -/
structure VaultAPIConfig where
  address : String
  tls : Option APITLSConfig := none
deriving Repr, DecidableEq

/-- Model of `*api.Client` as far as this core observes it: the address
it is bound to (`client.Address()`) and the TLS material its underlying
configuration carried at construction time. -/
structure VaultClient where
  address : String
  tls : Option APITLSConfig := none
deriving Repr, DecidableEq

/-- The `kubeConn` struct of the source. `configPath` is declared in the
source but never assigned by `configure`, so it stays at its zero value. -/
structure kubeConn where
  configPath : String := ""
  nameSpace : String := ""
  serviceName : String := ""
  localPort : String := ""
  remotePort : String := ""
  kubeConfig : Option restConfig := none
  kubeClient : Option Clientset := none
deriving Repr, DecidableEq

/-- The `tlsConfig` struct of the source. -/
structure tlsConfig where
  caCert : String := ""
  clientCert : String := ""
  clientKey : String := ""
  insecure : Bool := false
deriving Repr, DecidableEq

/-- The `apiClient` struct of the source; `client` is `none` while the
`*api.Client` pointer is still nil. -/
structure apiClient where
  client : Option VaultClient := none
  url : String := ""
  kubeConn : kubeConn := {}
  tlsAdded : Bool := false
  tlsConfig : tlsConfig := {}
deriving Repr, DecidableEq

/-- The `kube_config` block of the provider schema as written by the
user: `none` means the field was not set, so the schema default (or the
zero value for fields without a default) applies on read. -/
structure kubeConfigBlock where
  path : Option String := none
  nameSpace : Option String := none
  service : Option String := none
  local_port : Option String := none
  remote_port : Option String := none
  use_tls : Option Bool := none
  ca_cert : Option String := none
  client_cert : Option String := none
  client_key : Option String := none
  use_insecure_tls : Option Bool := none
deriving Repr, DecidableEq

/-- The provider-level configuration: `vault_addr`, the deprecated
`vault_url`, and the `kube_config` list (the schema declares it as a
list; `configure` uses its head when non-empty). `request_headers` is
declared in the schema but never read by `configure`, so it is omitted. -/
structure ProviderConfig where
  vault_addr : Option String := none
  vault_url : Option String := none
  kube_config : List kubeConfigBlock := []
deriving Repr, DecidableEq

/-- `d.Get(argVaultAddr).(string)`: the zero value `""` when unset. -/
def vaultAddrGet (cfg : ProviderConfig) : String := cfg.vault_addr.getD ""

/-- `d.Get(argVaultUrl).(string)`: the zero value `""` when unset. -/
def vaultUrlGet (cfg : ProviderConfig) : String := cfg.vault_url.getD ""

/-- Schema read of the `path` field (schema default `~/.kube/config`). -/
def kubeConfigPath (kc : kubeConfigBlock) : String := kc.path.getD "~/.kube/config"

/-- Schema read of the `namespace` field (no default, zero value `""`). -/
def kubeNamespace (kc : kubeConfigBlock) : String := kc.nameSpace.getD ""

/-- Schema read of the `service` field (no default, zero value `""`). -/
def kubeService (kc : kubeConfigBlock) : String := kc.service.getD ""

/-- Schema read of the `local_port` field (schema default `"8200"`). -/
def kubeLocalPort (kc : kubeConfigBlock) : String := kc.local_port.getD "8200"

/-- Schema read of the `remote_port` field (schema default `"8200"`). -/
def kubeRemotePort (kc : kubeConfigBlock) : String := kc.remote_port.getD "8200"

/-- Schema read of the `use_tls` field (schema default `false`). -/
def kubeUseTLS (kc : kubeConfigBlock) : Bool := kc.use_tls.getD false

/-- Schema read of the `ca_cert` field (string zero value when unset). -/
def kubeCaCert (kc : kubeConfigBlock) : String := kc.ca_cert.getD ""

/-- Schema read of the `client_cert` field (string zero value when unset). -/
def kubeClientCert (kc : kubeConfigBlock) : String := kc.client_cert.getD ""

/-- Schema read of the `client_key` field (string zero value when unset). -/
def kubeClientKey (kc : kubeConfigBlock) : String := kc.client_key.getD ""

/-- Schema read of the `use_insecure_tls` field (schema default `true`). -/
def kubeInsecureTLS (kc : kubeConfigBlock) : Bool := kc.use_insecure_tls.getD true

/-- Capabilities consumed by `configure`: the process environment
(`HOME`, `VAULT_ADDR`) and the external constructors it calls,
each able to fail with a message. -/
structure ConfigureEnv where
  home : String
  vaultAddrEnv : String
  buildConfigFromFlags : String → String → Except String restConfig
  newForConfig : restConfig → Except String Clientset
  configureTLS : APITLSConfig → Except String Unit
  newClient : VaultAPIConfig → Except String VaultClient

/-- The source `homeDir` helper: the `HOME` environment variable when
non-empty, else an error. -/
def homeDir (env : ConfigureEnv) : Except String String :=
  if env.home ≠ "" then .ok env.home else .error "unable to get HOME directory"

/-- `strings.Replace(path, "~", home, -1)`: every occurrence of the
one-character pattern `~` replaced by `home`. -/
def replaceTilde (home : String) (p : String) : String :=
  String.join (p.toList.map (fun c => if c = '~' then home else String.singleton c))

/-- The kube-config path expansion step of `configure`: when the path
contains `~`, resolve the home directory and substitute it. -/
def resolveKubePath (env : ConfigureEnv) (kc : kubeConfigBlock) : Except String String :=
  let path := kubeConfigPath kc
  if path.toList.contains '~' then
    match homeDir env with
    | .error e => .error e
    | .ok h => .ok (replaceTilde h path)
  else .ok path

/-- The TLS application step of `configure`: when `tlsAdded` was set,
call `vaultConfig.ConfigureTLS` with the material recorded in
`a.tlsConfig` and record it on the `api.Config`; a no-op otherwise. -/
def applyTLSStep (env : ConfigureEnv) (a : apiClient) : Except String VaultAPIConfig :=
  if a.tlsAdded then
    match env.configureTLS { caCert := a.tlsConfig.caCert, clientCert := a.tlsConfig.clientCert,
                             clientKey := a.tlsConfig.clientKey, insecure := a.tlsConfig.insecure } with
    | .error e => .error e
    | .ok _ => .ok { address := a.url,
                     tls := some { caCert := a.tlsConfig.caCert, clientCert := a.tlsConfig.clientCert,
                                   clientKey := a.tlsConfig.clientKey, insecure := a.tlsConfig.insecure } }
  else .ok { address := a.url, tls := none }

/-- The tail of `configure` shared by both branches: fail when the url
stayed empty, apply TLS to the `api.Config` when `tlsAdded` was set
(the `applyTLSStep` above), and build the Vault API client. -/
def finishConfigure (env : ConfigureEnv) (a : apiClient) : Except String apiClient :=
  if a.url = "" then
    .error "argument \x27vault_url\x27 is required, or set VAULT_ADDR environment variable"
  else
    match applyTLSStep env a with
    | .error e => .error e
    | .ok vaultConfig =>
      match env.newClient vaultConfig with
      | .error e => .error e
      | .ok c => .ok { a with client := some c }

/-- The provider `configure` function (TLS-enabled revision of the
source). The tunnel branch runs when the `kube_config` list is
non-empty; note that the TLS material recorded when `use_tls` is set is
the literal `tlsConfig{caCert: "", clientCert: "", clientKey: "",
insecure: false}` of the source, not the configured block values. -/
def configure (env : ConfigureEnv) (cfg : ProviderConfig) : Except String apiClient :=
  match cfg.kube_config with
  | kc :: _ =>
    match resolveKubePath env kc with
    | .error e => .error e
    | .ok path =>
      match env.buildConfigFromFlags "" path with
      | .error e => .error e
      | .ok restCfg =>
        match env.newForConfig restCfg with
        | .error e => .error e
        | .ok clientset =>
          if kubeNamespace kc = "" then .error "Vault namespace is not specified"
          else if kubeService kc = "" then .error "Vault service name is not specified"
          else
            let conn : kubeConn := { configPath := "", nameSpace := kubeNamespace kc,
                                     serviceName := kubeService kc, localPort := kubeLocalPort kc,
                                     remotePort := kubeRemotePort kc, kubeConfig := some restCfg,
                                     kubeClient := some clientset }
            if kubeUseTLS kc then
              finishConfigure env { client := none, url := "https://localhost:" ++ kubeLocalPort kc,
                                    kubeConn := conn, tlsAdded := true,
                                    tlsConfig := { caCert := "", clientCert := "", clientKey := "", insecure := false } }
            else
              finishConfigure env { client := none, url := "http://localhost:" ++ kubeLocalPort kc,
                                    kubeConn := conn, tlsAdded := false, tlsConfig := {} }
  | [] =>
    finishConfigure env
      { client := none,
        url := (if vaultAddrGet cfg ≠ "" then vaultAddrGet cfg
                else if vaultUrlGet cfg ≠ "" then vaultUrlGet cfg
                else env.vaultAddrEnv),
        kubeConn := {}, tlsAdded := false, tlsConfig := {} }

/-- The `api.InitRequest` fields the source populates. -/
structure InitRequest where
  secretShares : Int
  secretThreshold : Int
deriving Repr, DecidableEq

/-- The `api.InitResponse` fields the source consumes: `keys`,
`keys_base64` and `root_token`. -/
structure InitResponse where
  keys : List String := []
  keysB64 : List String := []
  rootToken : String := ""
deriving Repr, DecidableEq

/-- The `*schema.ResourceData` of the init resource as this core reads
and writes it: the id plus the schema attributes. -/
structure ResourceData where
  id : String := ""
  secret_shares : Int := 0
  secret_threshold : Int := 0
  root_token : String := ""
  keys : List String := []
  keys_base64 : List String := []
deriving Repr, DecidableEq

/-- The source `updateState`: set the id and store the three response
fields verbatim. -/
def updateState (d : ResourceData) (id : String) (res : InitResponse) : ResourceData :=
  { d with id := id, root_token := res.rootToken, keys := res.keys, keys_base64 := res.keysB64 }

/-- `resourceInitCreate`: issue the initialize RPC (`client.Sys().Init`,
modelled as the `sysInit` capability) with the configured shares and
threshold; on error return the error as diagnostics leaving `d`
untouched, on success apply `updateState` with `client.Address()`.
The result pairs the resource data after the call with the diagnostics
(`none` models the empty `diag.Diagnostics{}`). -/
def resourceInitCreate (sysInit : InitRequest → Except String InitResponse)
    (client : VaultClient) (d : ResourceData) : ResourceData × Option String :=
  match sysInit { secretShares := d.secret_shares, secretThreshold := d.secret_threshold } with
  | .error e => (d, some e)
  | .ok res => (updateState d client.address res, none)

/-- `resourceInitRead`: always the `not implemented` diagnostic, `d`
untouched. -/
def resourceInitRead (d : ResourceData) : ResourceData × Option String :=
  (d, some "not implemented")

/-- `resourceInitUpdate`: always the `not implemented` diagnostic, `d`
untouched. -/
def resourceInitUpdate (d : ResourceData) : ResourceData × Option String :=
  (d, some "not implemented")

/-- `resourceInitDelete`: always the `not implemented` diagnostic, `d`
untouched. -/
def resourceInitDelete (d : ResourceData) : ResourceData × Option String :=
  (d, some "not implemented")

/-- A parsed URL as far as the importer observes it: `u.Scheme`,
`u.Host` and `u.Path`. -/
structure URL where
  scheme : String
  host : String
  path : String
deriving Repr, DecidableEq

/-- Everything before the first `:` paired with everything after it. -/
def splitAtColon : List Char → Option (List Char × List Char)
  | [] => none
  | ':' :: rest => some ([], rest)
  | c :: rest => (splitAtColon rest).map (fun p => (c :: p.1, p.2))

/-- A valid URI scheme: a letter followed by letters, digits, `+`, `-`
or `.` (the `getScheme` rule of `net/url`). -/
def validScheme : List Char → Bool
  | [] => false
  | c :: rest => c.isAlpha && rest.all (fun x => x.isAlphanum || x = '+' || x = '-' || x = '.')

/-- Model of `net/url.Parse` restricted to the forms the importer
meets: reject control characters, split off a valid scheme at the first
colon (lowercasing it), then read `//host/path` when present; a scheme
with no `//` is the opaque form (empty host and path), and a string with
no scheme parses as a bare path. Query, fragment, userinfo and port
splitting are not modelled (no claim exercises them). -/
def parseURL (s : String) : Except String URL :=
  let cs := s.toList
  if cs.any (fun c => c.toNat < 32 ∨ c.toNat = 127) then
    .error "net/url: invalid control character in URL"
  else
    let (scheme, rest) :=
      match splitAtColon cs with
      | some (before, after) =>
        if validScheme before then (String.mk (before.map Char.toLower), after) else ("", cs)
      | none => ("", cs)
    match rest with
    | '/' :: '/' :: rest2 =>
      .ok { scheme := scheme, host := String.mk (rest2.takeWhile (fun c => c ≠ '/')),
            path := String.mk (rest2.dropWhile (fun c => c ≠ '/')) }
    | _ =>
      if scheme ≠ "" then .ok { scheme := scheme, host := "", path := "" }
      else .ok { scheme := "", host := "", path := String.mk rest }

/-- Split a character list on a separator character. -/
def splitChar (sep : Char) : List Char → List (List Char)
  | [] => [[]]
  | c :: rest =>
    let r := splitChar sep rest
    if c = sep then [] :: r
    else
      match r with
      | h :: t => (c :: h) :: t
      | [] => [[c]]

/-- Model of `path.Clean` (the slash-separated cleaning that
`filepath.Join` applies on unix): drop empty and `.` components, resolve
`..`, keep the rooted prefix. -/
def pathClean (p : String) : String :=
  if p = "" then "."
  else
    let cs := p.toList
    let rooted := match cs with | '/' :: _ => true | _ => false
    let comps := ((splitChar '/' cs).map String.mk).filter (fun c => c ≠ "" && c ≠ ".")
    let out := comps.foldl
      (fun acc c =>
        if c = ".." then
          match acc with
          | [] => if rooted then [] else [".."]
          | x :: rest => if x = ".." then c :: acc else rest
        else c :: acc) ([] : List String)
    let body := String.intercalate "/" out.reverse
    if rooted then "/" ++ body
    else if body = "" then "." else body

/-- Model of `filepath.Join(a, b)`: join the non-empty elements with a
slash and clean the result; empty when both elements are empty. -/
def filepathJoin (a b : String) : String :=
  if a = "" && b = "" then ""
  else if a = "" then pathClean b
  else if b = "" then pathClean a
  else pathClean (a ++ "/" ++ b)

/-- Capabilities consumed by the importer: `ioutil.ReadFile` and the
`encoding/json` unmarshalling of an `api.InitResponse`, each able to
fail with a message. -/
structure ImportEnv where
  readFile : String → Except String String
  unmarshalInitResponse : String → Except String InitResponse

/-- `resourceInitImporter`: parse the id as a URL, reject schemes other
than `file`, read the file at `filepath.Join(u.Host, u.Path)`,
unmarshal it as an `InitResponse` and apply `updateState` with
`client.Address()`; the single updated resource is returned. The `meta`
client handle is the one built by `configure` (the engine only invokes
the importer with a configured provider). -/
def resourceInitImporter (env : ImportEnv) (client : VaultClient)
    (d : ResourceData) : Except String (List ResourceData) :=
  match parseURL d.id with
  | .error e => .error e
  | .ok u =>
    if u.scheme ≠ "file" then .error "unsupported scheme"
    else
      match env.readFile (filepathJoin u.host u.path) with
      | .error e => .error e
      | .ok fc =>
        match env.unmarshalInitResponse fc with
        | .error e => .error e
        | .ok res => .ok [updateState d client.address res]

/-!  Shared concrete instances used by witnesses and counterexamples. -/

/-- An environment in which every external constructor succeeds, `HOME`
is set and `VAULT_ADDR` is unset; `newClient` binds the client to the
address and TLS material of the `api.Config` it receives. -/
def testEnv : ConfigureEnv :=
  { home := "/home/user", vaultAddrEnv := "",
    buildConfigFromFlags := fun _ _ => .ok { tag := "restcfg" },
    newForConfig := fun _ => .ok { tag := "clientset" },
    configureTLS := fun _ => .ok (),
    newClient := fun c => .ok { address := c.address, tls := c.tls } }

/-- A tunnel block requesting TLS with explicit TLS material. -/
def kcTLS : kubeConfigBlock :=
  { path := some "/kube/config", nameSpace := some "vault", service := some "vault-svc",
    use_tls := some true, ca_cert := some "ca.pem", client_cert := some "cert.pem",
    client_key := some "key.pem", use_insecure_tls := some true }

/-- Provider configuration carrying only the TLS tunnel block. -/
def cfgTLS : ProviderConfig := { kube_config := [kcTLS] }

/-- The client value `configure testEnv cfgTLS` produces. -/
def apiClientTLS : apiClient :=
  { client := some { address := "https://localhost:8200",
                     tls := some { caCert := "", clientCert := "", clientKey := "", insecure := false } },
    url := "https://localhost:8200",
    kubeConn := { configPath := "", nameSpace := "vault", serviceName := "vault-svc",
                  localPort := "8200", remotePort := "8200",
                  kubeConfig := some { tag := "restcfg" }, kubeClient := some { tag := "clientset" } },
    tlsAdded := true,
    tlsConfig := { caCert := "", clientCert := "", clientKey := "", insecure := false } }

/-- A client handle as the resource operations receive it from the
configured provider. -/
def clientW : VaultClient := { address := "http://v:8200" }

/-!  Helper lemmas about `finishConfigure`. -/

/-- A successful `finishConfigure` preserves the url, the `tlsAdded`
flag and the recorded TLS material of its argument. -/
theorem finishConfigure_ok {env : ConfigureEnv} {a b : apiClient}
    (h : finishConfigure env a = .ok b) :
    b.url = a.url ∧ b.tlsAdded = a.tlsAdded ∧ b.tlsConfig = a.tlsConfig := by
  by_cases hu : a.url = ""
  · simp [finishConfigure, hu] at h
  · rw [finishConfigure, if_neg hu] at h
    cases hts : applyTLSStep env a with
    | error e => rw [hts] at h; cases h
    | ok vc =>
      rw [hts] at h
      dsimp only at h
      cases hnc : env.newClient vc with
      | error e => rw [hnc] at h; cases h
      | ok c =>
        rw [hnc] at h
        dsimp only at h
        cases h
        exact ⟨rfl, rfl, rfl⟩

/-!  Claims about the init resource lifecycle operations. -/

/-- Claim C7: for every input state, the read, update and delete
operations of the init resource each return a `not implemented` error
and leave the resource state unchanged. -/
theorem C7_read_update_delete_not_implemented (d : ResourceData) :
    resourceInitRead d = (d, some "not implemented") ∧
    resourceInitUpdate d = (d, some "not implemented") ∧
    resourceInitDelete d = (d, some "not implemented") :=
  ⟨rfl, rfl, rfl⟩

/-- A populated resource state, as left behind by an earlier
successful create. -/
def dPrev : ResourceData :=
  { id := "http://v:8200", secret_shares := 5, secret_threshold := 3,
    root_token := "t1", keys := ["k1"], keys_base64 := ["a2k="] }

/-- Witness for C7 at a concrete populated state. -/
theorem C7_read_update_delete_not_implemented_witness :
    resourceInitRead dPrev = (dPrev, some "not implemented") ∧
    resourceInitUpdate dPrev = (dPrev, some "not implemented") ∧
    resourceInitDelete dPrev = (dPrev, some "not implemented") :=
  C7_read_update_delete_not_implemented dPrev

/-- Claim C8: when the initialize RPC fails, create returns the
service error unchanged as its diagnostics and the resource state
stays exactly as it was, so state written by an earlier successful
create is neither overwritten nor cleared. -/
theorem C8_create_failure_commits_no_state
    (sysInit : InitRequest → Except String InitResponse)
    (client : VaultClient) (d : ResourceData) (e : String)
    (h : sysInit { secretShares := d.secret_shares, secretThreshold := d.secret_threshold } = .error e) :
    resourceInitCreate sysInit client d = (d, some e) := by
  simp [resourceInitCreate, h]

/-- The initialize RPC of an already-initialized service: always the
same error. -/
def sysInitFail : InitRequest → Except String InitResponse :=
  fun _ => .error "Vault is already initialized"

/-- Witness for C8: a second create against an already-initialized
handle surfaces the error and leaves the first create's state intact. -/
theorem C8_create_failure_commits_no_state_witness :
    sysInitFail { secretShares := dPrev.secret_shares, secretThreshold := dPrev.secret_threshold }
      = .error "Vault is already initialized" ∧
    resourceInitCreate sysInitFail clientW dPrev = (dPrev, some "Vault is already initialized") :=
  ⟨rfl, C8_create_failure_commits_no_state sysInitFail clientW dPrev "Vault is already initialized" rfl⟩

/-- Claim C9: applying the state update with an address and an init
result and reading the reconciled state back yields the address as
identity and exactly the result's root token, key list and base64 key
list, with the same lengths and element order. -/
theorem C9_updateState_roundtrip (d : ResourceData) (addr : String) (res : InitResponse) :
    (updateState d addr res).id = addr ∧
    (updateState d addr res).root_token = res.rootToken ∧
    (updateState d addr res).keys = res.keys ∧
    (updateState d addr res).keys_base64 = res.keysB64 ∧
    (updateState d addr res).keys.length = res.keys.length ∧
    (updateState d addr res).keys_base64.length = res.keysB64.length := by
  simp [updateState]

/-- A concrete init result with two keys. -/
def resTwoKeys : InitResponse :=
  { keys := ["k1", "k2"], keysB64 := ["a2E=", "a2I="], rootToken := "root-1" }

/-- Witness for C9 at a concrete state, address and result. -/
theorem C9_updateState_roundtrip_witness :
    (updateState dPrev "http://w:8200" resTwoKeys).id = "http://w:8200" ∧
    (updateState dPrev "http://w:8200" resTwoKeys).root_token = resTwoKeys.rootToken ∧
    (updateState dPrev "http://w:8200" resTwoKeys).keys = resTwoKeys.keys ∧
    (updateState dPrev "http://w:8200" resTwoKeys).keys_base64 = resTwoKeys.keysB64 ∧
    (updateState dPrev "http://w:8200" resTwoKeys).keys.length = resTwoKeys.keys.length ∧
    (updateState dPrev "http://w:8200" resTwoKeys).keys_base64.length = resTwoKeys.keysB64.length :=
  C9_updateState_roundtrip dPrev "http://w:8200" resTwoKeys

/-!  Claims about the importer. -/

/-- Claim C5: for every import identifier that parses as a URI whose
scheme is not `file`, the importer fails with the unsupported-scheme
error; the result is the same for every filesystem and decoder
capability (so no file is read) and no state is returned. -/
theorem C5_importer_rejects_non_file_scheme
    (env : ImportEnv) (client : VaultClient) (d : ResourceData) (u : URL)
    (hp : parseURL d.id = .ok u) (hs : u.scheme ≠ "file") :
    resourceInitImporter env client d = .error "unsupported scheme" ∧
    (∀ env2 : ImportEnv, resourceInitImporter env2 client d = resourceInitImporter env client d) := by
  constructor
  · simp [resourceInitImporter, hp, hs]
  · intro env2
    simp [resourceInitImporter, hp, hs]

/-- An import environment whose reads all fail; C5 asserts the importer
result does not depend on it. -/
def importEnvA : ImportEnv :=
  { readFile := fun _ => .error "file should not be read",
    unmarshalInitResponse := fun _ => .error "not json" }

/-- Resource data whose import id carries an https scheme. -/
def dHTTPS : ResourceData := { id := "https://example.com/x.json" }

/-- Witness for C5 at a concrete https identifier. -/
theorem C5_importer_rejects_non_file_scheme_witness :
    parseURL dHTTPS.id = .ok { scheme := "https", host := "example.com", path := "/x.json" } ∧
    resourceInitImporter importEnvA clientW dHTTPS = .error "unsupported scheme" :=
  ⟨rfl, (C5_importer_rejects_non_file_scheme importEnvA clientW dHTTPS
          { scheme := "https", host := "example.com", path := "/x.json" } rfl (by decide)).1⟩

/-- Claim C6: importing from a `file` URI whose file read succeeds and
decodes as an init response yields exactly one reconciled state with
identity equal to the configured client handle address and the
root token, keys and base64 keys of the decoded file verbatim. -/
theorem C6_importer_success_reconciles_state
    (env : ImportEnv) (client : VaultClient) (d : ResourceData) (u : URL)
    (fc : String) (res : InitResponse)
    (hp : parseURL d.id = .ok u) (hs : u.scheme = "file")
    (hr : env.readFile (filepathJoin u.host u.path) = .ok fc)
    (hu : env.unmarshalInitResponse fc = .ok res) :
    resourceInitImporter env client d =
      .ok [{ d with id := client.address, root_token := res.rootToken,
                    keys := res.keys, keys_base64 := res.keysB64 }] := by
  simp [resourceInitImporter, hp, hs, hr, hu, updateState]

/-- The JSON text of the spec example init file. -/
def initJSON : String :=
  "\x7b\"keys\":[\"k1\"],\"keys_base64\":[\"a2k=\"],\"root_token\":\"t1\"\x7d"

/-- The init response the spec example decodes to. -/
def resOneKey : InitResponse := { keys := ["k1"], keysB64 := ["a2k="], rootToken := "t1" }

/-- Model of the `encoding/json` boundary for the spec example file:
decodes `initJSON` to `resOneKey` and rejects other contents. -/
def unmarshalExample : String → Except String InitResponse :=
  fun s => if s = initJSON then .ok resOneKey else .error "invalid json"

/-- A filesystem with the spec example file at /tmp/x.json. -/
def importEnvB : ImportEnv :=
  { readFile := fun p => if p = "/tmp/x.json" then .ok initJSON else .error "no such file",
    unmarshalInitResponse := unmarshalExample }

/-- Resource data whose import id is the spec example file URI. -/
def dImport : ResourceData := { id := "file:///tmp/x.json", secret_shares := 5, secret_threshold := 3 }

/-- Witness for C6 at the spec example: the file URI, JSON and client
address of the spec sentence, reconciled verbatim. -/
theorem C6_importer_success_reconciles_state_witness :
    resourceInitImporter importEnvB clientW dImport =
      .ok [{ id := "http://v:8200", secret_shares := 5, secret_threshold := 3,
             root_token := "t1", keys := ["k1"], keys_base64 := ["a2k="] }] :=
  C6_importer_success_reconciles_state importEnvB clientW dImport
    { scheme := "file", host := "", path := "/tmp/x.json" } initJSON resOneKey
    rfl rfl rfl rfl

/-- Model of the `encoding/json` boundary shared by the two C10 import
environments below. -/
def unmarshalRel : String → Except String InitResponse :=
  fun s => if s = initJSON then .ok resOneKey else .error "invalid json"

/-- A filesystem defined only at the relative path `name.json`. -/
def importEnvC : ImportEnv :=
  { readFile := fun p => if p = "name.json" then .ok initJSON else .error "missing one",
    unmarshalInitResponse := unmarshalRel }

/-- A second filesystem agreeing with `importEnvC` at `name.json` and
nowhere else. -/
def importEnvD : ImportEnv :=
  { readFile := fun p => if p = "name.json" then .ok initJSON else .error "missing two",
    unmarshalInitResponse := unmarshalRel }

/-- A filesystem defined only at the absolute path `/a/b.json`. -/
def importEnvE : ImportEnv :=
  { readFile := fun p => if p = "/a/b.json" then .ok initJSON else .error "missing three",
    unmarshalInitResponse := unmarshalRel }

/-- Resource data whose import id has the host-form file URI. -/
def dRel : ResourceData := { id := "file://name.json" }

/-- Resource data whose import id has the empty-host file URI. -/
def dAbs : ResourceData := { id := "file:///a/b.json" }

/-- Claim C10: for a `file` URI the filesystem path read is the join of
the URI host and path components — the importer result depends on the
filesystem only through that joined path — so `file://name.json`
(host `name.json`) reads the relative path `name.json` and
`file:///a/b.json` (empty host) reads the absolute path `/a/b.json`,
shown end to end on filesystems defined only at those paths. -/
theorem C10_importer_joins_host_and_path :
    parseURL "file://name.json" = .ok { scheme := "file", host := "name.json", path := "" } ∧
    filepathJoin "name.json" "" = "name.json" ∧
    parseURL "file:///a/b.json" = .ok { scheme := "file", host := "", path := "/a/b.json" } ∧
    filepathJoin "" "/a/b.json" = "/a/b.json" ∧
    (∀ (env1 env2 : ImportEnv) (client : VaultClient) (d : ResourceData) (u : URL),
      parseURL d.id = .ok u → u.scheme = "file" →
      env1.readFile (filepathJoin u.host u.path) = env2.readFile (filepathJoin u.host u.path) →
      env1.unmarshalInitResponse = env2.unmarshalInitResponse →
      resourceInitImporter env1 client d = resourceInitImporter env2 client d) ∧
    resourceInitImporter importEnvC clientW dRel =
      .ok [{ id := "http://v:8200", root_token := "t1", keys := ["k1"], keys_base64 := ["a2k="] }] ∧
    resourceInitImporter importEnvE clientW dAbs =
      .ok [{ id := "http://v:8200", root_token := "t1", keys := ["k1"], keys_base64 := ["a2k="] }] := by
  refine ⟨rfl, rfl, rfl, rfl, ?_, rfl, rfl⟩
  intro env1 env2 client d u hp hs hr hum
  simp only [resourceInitImporter, hp, hs, hr, hum]

/-- Witness for C10: the two filesystems agreeing only at `name.json`
give the same import result for `file://name.json`. -/
theorem C10_importer_joins_host_and_path_witness :
    resourceInitImporter importEnvC clientW dRel = resourceInitImporter importEnvD clientW dRel :=
  C10_importer_joins_host_and_path.2.2.2.2.1 importEnvC importEnvD clientW dRel
    { scheme := "file", host := "name.json", path := "" } rfl rfl rfl rfl

/-!  Claims about `configure`. -/

/-- Claim C3: with no tunnel block, the resolved address is
`vault_addr` when non-empty, else `vault_url` when non-empty, else the
`VAULT_ADDR` environment variable; when all three are empty, configure
fails (no client handle) with the configuration error naming the
expected argument and the `VAULT_ADDR` environment variable. -/
theorem C3_direct_address_resolution (env : ConfigureEnv) (cfg : ProviderConfig)
    (hk : cfg.kube_config = []) :
    (∀ a, configure env cfg = .ok a →
      a.url = (if vaultAddrGet cfg ≠ "" then vaultAddrGet cfg
               else if vaultUrlGet cfg ≠ "" then vaultUrlGet cfg
               else env.vaultAddrEnv)) ∧
    (vaultAddrGet cfg = "" → vaultUrlGet cfg = "" → env.vaultAddrEnv = "" →
      configure env cfg =
        .error "argument \x27vault_url\x27 is required, or set VAULT_ADDR environment variable") := by
  constructor
  · intro a ha
    simp only [configure, hk] at ha
    simpa using (finishConfigure_ok ha).1
  · intro h1 h2 h3
    simp [configure, hk, h1, h2, h3, finishConfigure]

/-- A direct configuration with both address fields set. -/
def cfgAddr : ProviderConfig :=
  { vault_addr := some "http://v1:8200", vault_url := some "http://v2:8200" }

/-- The client value `configure testEnv cfgAddr` produces. -/
def apiClientAddr : apiClient :=
  { client := some { address := "http://v1:8200", tls := none },
    url := "http://v1:8200", kubeConn := {}, tlsAdded := false, tlsConfig := {} }

/-- Witness for C3: `vault_addr` wins over `vault_url` when both are
set, and the all-empty configuration fails with the expected error. -/
theorem C3_direct_address_resolution_witness :
    configure testEnv cfgAddr = .ok apiClientAddr ∧
    apiClientAddr.url = "http://v1:8200" ∧
    configure testEnv {} =
      .error "argument \x27vault_url\x27 is required, or set VAULT_ADDR environment variable" :=
  ⟨rfl,
   ((C3_direct_address_resolution testEnv cfgAddr rfl).1 apiClientAddr rfl).trans (by decide),
   (C3_direct_address_resolution testEnv {} rfl).2 rfl rfl rfl⟩

/-- Claim C2: with a non-empty tunnel block whose namespace and service
are non-empty, the resolved address is exactly
`https://localhost:<local_port>` when TLS is requested and
`http://localhost:<local_port>` otherwise, where the local port
defaults to `8200` when unspecified; the configured `vault_addr` and
`vault_url` are ignored in this case. -/
theorem C2_tunnel_address_resolution (env : ConfigureEnv) (cfg : ProviderConfig)
    (kc : kubeConfigBlock) (tl : List kubeConfigBlock)
    (hk : cfg.kube_config = kc :: tl)
    (hns : kubeNamespace kc ≠ "") (hsvc : kubeService kc ≠ "") :
    (∀ a, configure env cfg = .ok a →
      a.url = (if kubeUseTLS kc then "https://localhost:" else "http://localhost:")
                ++ kubeLocalPort kc) ∧
    (kc.local_port = none → kubeLocalPort kc = "8200") ∧
    (∀ va vu, configure env { vault_addr := va, vault_url := vu, kube_config := cfg.kube_config }
                = configure env cfg) := by
  refine ⟨?_, ?_, ?_⟩
  · intro a ha
    cases hp : resolveKubePath env kc with
    | error e => simp [configure, hk, hp] at ha
    | ok p =>
      cases hb : env.buildConfigFromFlags "" p with
      | error e => simp [configure, hk, hp, hb] at ha
      | ok rc =>
        cases hc : env.newForConfig rc with
        | error e => simp [configure, hk, hp, hb, hc] at ha
        | ok ks =>
          cases ht : kubeUseTLS kc with
          | true =>
            simp only [configure, hk, hp, hb, hc, ht, if_neg hns, if_neg hsvc, if_true] at ha
            simp only [ht, if_true]
            simpa using (finishConfigure_ok ha).1
          | false =>
            simp only [configure, hk, hp, hb, hc, ht, if_neg hns, if_neg hsvc,
                       Bool.false_eq_true, if_false] at ha
            simp only [ht, Bool.false_eq_true, if_false]
            simpa using (finishConfigure_ok ha).1
  · intro h
    simp [kubeLocalPort, h]
  · intro va vu
    simp [configure, hk]

/-- A plain tunnel block: namespace and service only, everything else
left to the schema defaults. -/
def kcHTTP : kubeConfigBlock := { nameSpace := some "ns", service := some "svc" }

/-- A configuration with both a tunnel block and a direct address. -/
def cfgHTTP : ProviderConfig :=
  { vault_addr := some "http://ignored:1", kube_config := [kcHTTP] }

/-- The client value `configure testEnv cfgHTTP` produces. -/
def apiClientHTTP : apiClient :=
  { client := some { address := "http://localhost:8200", tls := none },
    url := "http://localhost:8200",
    kubeConn := { configPath := "", nameSpace := "ns", serviceName := "svc",
                  localPort := "8200", remotePort := "8200",
                  kubeConfig := some { tag := "restcfg" }, kubeClient := some { tag := "clientset" } },
    tlsAdded := false, tlsConfig := {} }

/-- Witness for C2: an http tunnel with defaulted local port resolves
to `http://localhost:8200` and the configured `vault_addr` is ignored. -/
theorem C2_tunnel_address_resolution_witness :
    configure testEnv cfgHTTP = .ok apiClientHTTP ∧
    apiClientHTTP.url = "http://localhost:8200" ∧
    kcHTTP.local_port = none ∧
    kubeLocalPort kcHTTP = "8200" ∧
    configure testEnv { vault_addr := some "a", vault_url := some "b", kube_config := cfgHTTP.kube_config }
      = configure testEnv cfgHTTP :=
  ⟨rfl,
   ((C2_tunnel_address_resolution testEnv cfgHTTP kcHTTP [] rfl (by decide) (by decide)).1
      apiClientHTTP rfl).trans (by decide),
   rfl,
   (C2_tunnel_address_resolution testEnv cfgHTTP kcHTTP [] rfl (by decide) (by decide)).2.1 rfl,
   (C2_tunnel_address_resolution testEnv cfgHTTP kcHTTP [] rfl (by decide) (by decide)).2.2
     (some "a") (some "b")⟩

/-- Claim C4: with a tunnel block whose namespace reads empty,
configure always fails; when the kube-side steps succeed the error is
exactly the missing-namespace message, and the outcome is the same for
every Vault client constructor and TLS applicator, so the Vault API
client handle is never constructed in that run. -/
theorem C4_empty_namespace_fails (env : ConfigureEnv) (cfg : ProviderConfig)
    (kc : kubeConfigBlock) (tl : List kubeConfigBlock)
    (hk : cfg.kube_config = kc :: tl) (hns : kubeNamespace kc = "") :
    (∃ e, configure env cfg = .error e) ∧
    (∀ p rc ks, resolveKubePath env kc = .ok p →
      env.buildConfigFromFlags "" p = .ok rc →
      env.newForConfig rc = .ok ks →
      configure env cfg = .error "Vault namespace is not specified") ∧
    (∀ nc ctls, configure { env with newClient := nc, configureTLS := ctls } cfg
        = configure env cfg) := by
  refine ⟨?_, ?_, ?_⟩
  · cases hp : resolveKubePath env kc with
    | error e => exact ⟨e, by simp [configure, hk, hp]⟩
    | ok p =>
      cases hb : env.buildConfigFromFlags "" p with
      | error e => exact ⟨e, by simp [configure, hk, hp, hb]⟩
      | ok rc =>
        cases hc : env.newForConfig rc with
        | error e => exact ⟨e, by simp [configure, hk, hp, hb, hc]⟩
        | ok ks => exact ⟨"Vault namespace is not specified", by simp [configure, hk, hp, hb, hc, hns]⟩
  · intro p rc ks hp hb hc
    simp [configure, hk, hp, hb, hc, hns]
  · intro nc ctls
    have h1 : resolveKubePath { env with newClient := nc, configureTLS := ctls } kc
        = resolveKubePath env kc := rfl
    cases hp : resolveKubePath env kc with
    | error e => simp [configure, hk, h1, hp]
    | ok p =>
      cases hb : env.buildConfigFromFlags "" p with
      | error e => simp [configure, hk, h1, hp, hb]
      | ok rc =>
        cases hc : env.newForConfig rc with
        | error e => simp [configure, hk, h1, hp, hb, hc]
        | ok ks => simp [configure, hk, h1, hp, hb, hc, hns]

/-- A tunnel block with a service but no namespace. -/
def kcNoNS : kubeConfigBlock := { path := some "/kube/config", service := some "svc" }

/-- A configuration carrying only the namespace-less tunnel block. -/
def cfgNoNS : ProviderConfig := { kube_config := [kcNoNS] }

/-- Witness for C4: the namespace-less tunnel block makes configure
fail with the missing-namespace error. -/
theorem C4_empty_namespace_fails_witness :
    kubeNamespace kcNoNS = "" ∧
    configure testEnv cfgNoNS = .error "Vault namespace is not specified" :=
  ⟨rfl,
   (C4_empty_namespace_fails testEnv cfgNoNS kcNoNS [] rfl rfl).2.1
     "/kube/config" { tag := "restcfg" } { tag := "clientset" } rfl rfl rfl⟩

/-- Counterexample to claim C1: a tunnel block requesting TLS with
explicit CA cert, client cert, client key and an insecure flag of true
produces a client whose applied TLS configuration is hardcoded empty
material with insecure false, not the configured values. -/
theorem C1_tls_material_counterexample :
    kubeUseTLS kcTLS = true ∧
    kubeCaCert kcTLS = "ca.pem" ∧
    kubeClientCert kcTLS = "cert.pem" ∧
    kubeClientKey kcTLS = "key.pem" ∧
    kubeInsecureTLS kcTLS = true ∧
    configure testEnv cfgTLS = .ok apiClientTLS ∧
    apiClientTLS.tlsConfig ≠ { caCert := kubeCaCert kcTLS, clientCert := kubeClientCert kcTLS,
                               clientKey := kubeClientKey kcTLS, insecure := kubeInsecureTLS kcTLS } ∧
    apiClientTLS.client ≠ some { address := "https://localhost:8200",
                                 tls := some { caCert := kubeCaCert kcTLS, clientCert := kubeClientCert kcTLS,
                                               clientKey := kubeClientKey kcTLS, insecure := kubeInsecureTLS kcTLS } } ∧
    apiClientTLS.client = some { address := "https://localhost:8200",
                                 tls := some { caCert := "", clientCert := "", clientKey := "", insecure := false } } :=
  ⟨rfl, rfl, rfl, rfl, rfl, rfl, by decide, by decide, rfl⟩

/-- Claim C1 as amended: when a tunnel block is present and TLS is
requested, the TLS configuration applied to the client handle is the
hardcoded empty material (empty CA cert, client cert and client key,
insecure false) regardless of the configured ca_cert, client_cert,
client_key and use_insecure_tls values, which configure never reads. -/
theorem C1_tls_material_hardcoded (env : ConfigureEnv) (cfg : ProviderConfig)
    (kc : kubeConfigBlock) (tl : List kubeConfigBlock)
    (hk : cfg.kube_config = kc :: tl) (ht : kubeUseTLS kc = true) :
    (∀ a, configure env cfg = .ok a →
      a.tlsAdded = true ∧
      a.tlsConfig = { caCert := "", clientCert := "", clientKey := "", insecure := false }) ∧
    (∀ ca cc ck it,
      configure env { cfg with kube_config :=
          ({ kc with ca_cert := ca, client_cert := cc, client_key := ck, use_insecure_tls := it } :: tl) }
        = configure env cfg) := by
  constructor
  · intro a ha
    cases hp : resolveKubePath env kc with
    | error e => simp [configure, hk, hp] at ha
    | ok p =>
      cases hb : env.buildConfigFromFlags "" p with
      | error e => simp [configure, hk, hp, hb] at ha
      | ok rc =>
        cases hc : env.newForConfig rc with
        | error e => simp [configure, hk, hp, hb, hc] at ha
        | ok ks =>
          by_cases hns : kubeNamespace kc = ""
          · simp [configure, hk, hp, hb, hc, hns] at ha
          · by_cases hsvc : kubeService kc = ""
            · simp [configure, hk, hp, hb, hc, hns, hsvc] at ha
            · simp only [configure, hk, hp, hb, hc, if_neg hns, if_neg hsvc, ht, if_true] at ha
              have h2 := finishConfigure_ok ha
              exact ⟨h2.2.1, h2.2.2⟩
  · intro ca cc ck it
    simp [configure, hk, resolveKubePath, kubeConfigPath, kubeNamespace, kubeService,
          kubeLocalPort, kubeRemotePort, kubeUseTLS]

/-- Witness for the amended C1 at the concrete TLS tunnel block. -/
theorem C1_tls_material_hardcoded_witness :
    configure testEnv cfgTLS = .ok apiClientTLS ∧
    apiClientTLS.tlsAdded = true ∧
    apiClientTLS.tlsConfig = { caCert := "", clientCert := "", clientKey := "", insecure := false } :=
  ⟨rfl, (C1_tls_material_hardcoded testEnv cfgTLS kcTLS [] rfl rfl).1 apiClientTLS rfl⟩
